import Mathlib

/-!
# Solar system scene: camera controller, orbital integrator, picking

A shallow embedding of `src/script.js` (class `SolarSystem`) together with the
few three.js vector routines its handlers call (`Vector3.multiplyScalar`,
`Vector3.clampLength`, `Spherical.setFromVector3`, `Vector3.setFromSpherical`).

JavaScript numbers are modelled as real numbers: rounding, infinities and NaN
are outside the model.  `Math.sqrt`, `Math.cos`, `Math.sin`, `Math.acos` are
the real functions, `Math.atan2 y x` is the argument of `x + y i`.
Calls that only affect rendering (`lookAt`, `render`, shadows, styling) are
left out; every field a handler reads back is kept.
-/

noncomputable section

namespace SolarScene

/-! ## three.js vectors -/

/-- A `THREE.Vector2`. -/
structure Vector2 where
  x : ℝ
  y : ℝ

/-- A `THREE.Vector3`. -/
structure Vector3 where
  x : ℝ
  y : ℝ
  z : ℝ

/-- A `THREE.Spherical`: `radius`, polar angle `phi`, azimuth `theta`. -/
structure Spherical where
  radius : ℝ
  phi : ℝ
  theta : ℝ

namespace Vector3

/-- `Vector3.multiplyScalar`: every component is multiplied by `s`. -/
def multiplyScalar (v : Vector3) (s : ℝ) : Vector3 :=
  ⟨v.x * s, v.y * s, v.z * s⟩

/-- `Vector3.divideScalar`: `multiplyScalar(1 / s)`. -/
def divideScalar (v : Vector3) (s : ℝ) : Vector3 :=
  v.multiplyScalar (1 / s)

/-- `Vector3.length`: the Euclidean norm. -/
def length (v : Vector3) : ℝ :=
  Real.sqrt (v.x * v.x + v.y * v.y + v.z * v.z)

/-- `Vector3.clampLength(min, max)`:
`divideScalar(length || 1).multiplyScalar(Math.max(min, Math.min(max, length)))`. -/
def clampLength (v : Vector3) (lo hi : ℝ) : Vector3 :=
  let length := v.length
  (v.divideScalar (if length = 0 then 1 else length)).multiplyScalar
    (max lo (min hi length))

/-- `Vector3.setFromSpherical`, that is
`setFromSphericalCoords(s.radius, s.phi, s.theta)`. -/
def setFromSpherical (s : Spherical) : Vector3 :=
  let sinPhiRadius := Real.sin s.phi * s.radius
  ⟨sinPhiRadius * Real.sin s.theta, Real.cos s.phi * s.radius,
    sinPhiRadius * Real.cos s.theta⟩

end Vector3

/-- `Math.atan2(y, x)` on real arguments. -/
def atan2 (y x : ℝ) : ℝ := Complex.arg ⟨x, y⟩

/-- `Spherical.setFromVector3`, that is `setFromCartesianCoords(v.x, v.y, v.z)`:
the zero vector gives `theta = phi = 0`, otherwise
`theta = atan2(x, z)` and `phi = acos(clamp(y / radius, -1, 1))`. -/
def Spherical.setFromVector3 (v : Vector3) : Spherical :=
  let radius := Real.sqrt (v.x * v.x + v.y * v.y + v.z * v.z)
  if radius = 0 then ⟨radius, 0, 0⟩
  else ⟨radius, Real.arccos (max (-1) (min 1 (v.y / radius))), atan2 v.x v.z⟩

/-! ## The scene objects -/

/-- The part of a `THREE.Object3D` (mesh or group) that the script reads or
writes: its name, its local position and the `y` component of its rotation. -/
structure Object3D where
  name : String
  position : Vector3
  rotationY : ℝ

/-- One record of `planetData`. -/
structure PlanetData where
  name : String
  size : ℝ
  distance : ℝ
  speed : ℝ
  color : String

/-- One entry of `this.planets`, as pushed by `createPlanets`. -/
structure Planet where
  mesh : Object3D
  orbitGroup : Object3D
  data : PlanetData
  currentSpeed : ℝ
  angle : ℝ

/-- The `#tooltip` element: its text and the three style fields the script sets. -/
structure Tooltip where
  textContent : String
  left : String
  top : String
  opacity : String

/-- One entry of the array returned by `Raycaster.intersectObjects`. -/
structure Intersection where
  distance : ℝ
  object : Object3D

/-- The viewport size read from `window.innerWidth` and `window.innerHeight`. -/
structure Window where
  innerWidth : ℝ
  innerHeight : ℝ

/-- The mutable state of a `SolarSystem` instance that the handlers touch,
together with the two closure variables of `setupMouseControls`
(`isDragging`, `previousMousePosition`) and the tooltip element. -/
structure SolarSystem where
  cameraPosition : Vector3
  mouse : Vector2
  isPaused : Bool
  sun : Object3D
  planets : List Planet
  starsRotationY : ℝ
  isDragging : Bool
  previousMousePosition : Vector2
  tooltip : Tooltip

/-- The table `this.planetData` of the constructor. -/
def planetData : List PlanetData :=
  [ ⟨"Mercury", 0.4, 8, 4.0, "gray"⟩,
    ⟨"Venus", 0.9, 12, 1.6, "white"⟩,
    ⟨"Earth", 1.0, 16, 1.0, "blue"⟩,
    ⟨"Mars", 0.5, 20, 0.5, "red"⟩,
    ⟨"Jupiter", 2.5, 28, 0.08, "yellow"⟩,
    ⟨"Saturn", 2.0, 36, 0.03, "gold"⟩,
    ⟨"Uranus", 1.5, 44, 0.01, "green"⟩,
    ⟨"Neptune", 1.4, 52, 0.006, "blue"⟩ ]

/-- The camera position set by `init`: `camera.position.set(0, 30, 60)`. -/
def initialCameraPosition : Vector3 := ⟨0, 30, 60⟩

/-- The mesh built by `createSun`: named `"Sun"`, at the origin. -/
def createSun : Object3D := ⟨"Sun", ⟨0, 0, 0⟩, 0⟩

/-- The body of the `forEach` in `createPlanets` for one record; `random` is
the value returned by `Math.random()`. -/
def createPlanet (data : PlanetData) (random : ℝ) : Planet :=
  { mesh := ⟨data.name, ⟨data.distance, 0, 0⟩, 0⟩
    orbitGroup := ⟨"", ⟨0, 0, 0⟩, 0⟩
    data := data
    currentSpeed := data.speed
    angle := random * Real.pi * 2 }

/-- The planets of `createPlanets`; `random i` is the draw made for record `i`. -/
def createPlanets (random : ℕ → ℝ) : List Planet :=
  planetData.mapIdx fun i data => createPlanet data (random i)

/-! ## `setupMouseControls` -/

namespace SolarSystem

/-- The `mousedown` listener. -/
def mousedownHandler (self : SolarSystem) (clientX clientY : ℝ) : SolarSystem :=
  { self with isDragging := true, previousMousePosition := ⟨clientX, clientY⟩ }

/-- The rotation done by the `mousemove` listener when `isDragging` holds. -/
def rotateCamera (position : Vector3) (deltaMove : Vector2) : Vector3 :=
  let spherical := Spherical.setFromVector3 position
  let spherical := { spherical with theta := spherical.theta - deltaMove.x * 0.01 }
  let spherical := { spherical with phi := spherical.phi + deltaMove.y * 0.01 }
  let spherical :=
    { spherical with phi := max 0.1 (min (Real.pi - 0.1) spherical.phi) }
  Vector3.setFromSpherical spherical

/-- The `mousemove` listener of `setupMouseControls`. -/
def mousemoveHandler (win : Window) (self : SolarSystem) (clientX clientY : ℝ) :
    SolarSystem :=
  let self :=
    if self.isDragging then
      let deltaMove : Vector2 :=
        ⟨clientX - self.previousMousePosition.x, clientY - self.previousMousePosition.y⟩
      { self with
        cameraPosition := rotateCamera self.cameraPosition deltaMove
        previousMousePosition := ⟨clientX, clientY⟩ }
    else self
  { self with
    mouse := ⟨clientX / win.innerWidth * 2 - 1, -(clientY / win.innerHeight) * 2 + 1⟩ }

/-- The `mouseup` listener. -/
def mouseupHandler (self : SolarSystem) : SolarSystem :=
  { self with isDragging := false }

/-- The `wheel` listener, on `camera.position`:
`scale = deltaY > 0 ? 1.1 : 0.9`, `multiplyScalar(scale)`, `clampLength(20, 200)`. -/
def zoomCamera (position : Vector3) (deltaY : ℝ) : Vector3 :=
  let scale : ℝ := if deltaY > 0 then 1.1 else 0.9
  (position.multiplyScalar scale).clampLength 20 200

/-- The `wheel` listener. -/
def wheelHandler (self : SolarSystem) (deltaY : ℝ) : SolarSystem :=
  { self with cameraPosition := zoomCamera self.cameraPosition deltaY }

/-! ## `handleMouseHover` -/

/-- The method `handleMouseHover`.  `intersects` is the array returned by
`raycaster.intersectObjects` for this event and `numberToString` is the
conversion of a number inside a template literal or a string concatenation. -/
def handleMouseHover (numberToString : ℝ → String) (win : Window) (self : SolarSystem)
    (clientX clientY : ℝ) (intersects : List Intersection) : SolarSystem :=
  let mouse : Vector2 :=
    ⟨clientX / win.innerWidth * 2 - 1, -(clientY / win.innerHeight) * 2 + 1⟩
  match intersects with
  | hit :: _ =>
    let object := hit.object
    let info : String :=
      if object.name = "Sun" then "The Sun - Our solar system\x27s star"
      else
        match planetData.find? (fun p => p.name == object.name) with
        | some planetInfo =>
          object.name ++ " - Distance: " ++ numberToString planetInfo.distance ++ " AU"
        | none => ""
    { self with
      mouse := mouse
      tooltip :=
        { textContent := info
          left := numberToString (clientX + 10) ++ "px"
          top := numberToString (clientY - 30) ++ "px"
          opacity := "1" } }
  | [] => { self with mouse := mouse, tooltip := { self.tooltip with opacity := "0" } }

/-- The array handed to `intersectObjects`:
`this.planets.map((p) => p.mesh).concat([this.sun])`. -/
def candidates (self : SolarSystem) : List Object3D :=
  self.planets.map (fun p => p.mesh) ++ [self.sun]

/-! ## `resetSystem` and `animate` -/

/-- The method `resetSystem`; `random i` is the `Math.random()` draw made for
the planet at index `i`.  The slider and button texts it rewrites are not kept. -/
def resetSystem (self : SolarSystem) (random : ℕ → ℝ) : SolarSystem :=
  { self with
    planets := self.planets.mapIdx fun index planet =>
      { planet with
        currentSpeed := planet.data.speed
        angle := random index * Real.pi * 2 }
    isPaused := false }

/-- The body of `this.planets.forEach` in `animate`. -/
def animatePlanet (planet : Planet) : Planet :=
  let angle := planet.angle + planet.currentSpeed * 0.01
  let x := Real.cos angle * planet.data.distance
  let z := Real.sin angle * planet.data.distance
  { planet with
    angle := angle
    mesh :=
      { planet.mesh with
        position := { planet.mesh.position with x := x, z := z }
        rotationY := planet.mesh.rotationY + 0.05 }
    orbitGroup := { planet.orbitGroup with rotationY := angle } }

/-- One call of `animate` (one frame). -/
def animate (self : SolarSystem) : SolarSystem :=
  if !self.isPaused then
    { self with
      sun := { self.sun with rotationY := self.sun.rotationY + 0.01 }
      planets := self.planets.map animatePlanet
      starsRotationY := self.starsRotationY + 0.0002 }
  else self

/-- Consecutive calls of `resetSystem`, one per entry of `randoms`. -/
def resetSequence (self : SolarSystem) (randoms : List (ℕ → ℝ)) : SolarSystem :=
  randoms.foldl resetSystem self

end SolarSystem

/-- The state when the constructor has run `init`: the constructor's field
values, the camera at `(0, 30, 60)`, the sun and the planets created, no drag
in progress.  `tooltip` is the `#tooltip` element as the page declares it. -/
def SolarSystem.init (random : ℕ → ℝ) (tooltip : Tooltip) : SolarSystem :=
  { cameraPosition := initialCameraPosition
    mouse := ⟨0, 0⟩
    isPaused := false
    sun := createSun
    planets := createPlanets random
    starsRotationY := 0
    isDragging := false
    previousMousePosition := ⟨0, 0⟩
    tooltip := tooltip }

/-- The `input` listener that `createControls` attaches to the slider of the
planet at `index`: `planet.currentSpeed = parseFloat(e.target.value)`. -/
def SolarSystem.sliderInput (self : SolarSystem) (index : ℕ) (newSpeed : ℝ) : SolarSystem :=
  { self with
    planets := self.planets.mapIdx fun i planet =>
      if i = index then { planet with currentSpeed := newSpeed } else planet }

/-- The `click` listener of the pause button: `this.isPaused = !this.isPaused`. -/
def SolarSystem.pauseClick (self : SolarSystem) : SolarSystem :=
  { self with isPaused := !self.isPaused }

/-! ## Event delivery -/

/-- The mouse events the canvas listens to, with the fields the listeners read;
a `mousemove` carries the answer of the raycaster for that pointer position. -/
inductive MouseEvent where
  | mousedown (clientX clientY : ℝ)
  | mousemove (clientX clientY : ℝ) (intersects : List Intersection)
  | mouseup
  | wheel (deltaY : ℝ)

/-- A mouse event together with its target: over the canvas or elsewhere
(another element of the page, or outside the window). -/
structure PointerEvent where
  onCanvas : Bool
  event : MouseEvent

/-- The listeners registered on `renderer.domElement`, in registration order:
those of `setupMouseControls`, then the `mousemove` listener of
`setupEventListeners` that calls `handleMouseHover`. -/
def canvasListeners (numberToString : ℝ → String) (win : Window) (self : SolarSystem) :
    MouseEvent → SolarSystem
  | .mousedown clientX clientY => self.mousedownHandler clientX clientY
  | .mousemove clientX clientY intersects =>
    (self.mousemoveHandler win clientX clientY).handleMouseHover numberToString win
      clientX clientY intersects
  | .mouseup => self.mouseupHandler
  | .wheel deltaY => self.wheelHandler deltaY

/-- Delivery of one event: every listener for these events is registered on the
canvas, so an event whose target is not the canvas runs none of them. -/
def dispatch (numberToString : ℝ → String) (win : Window) (self : SolarSystem)
    (e : PointerEvent) : SolarSystem :=
  if e.onCanvas then canvasListeners numberToString win self e.event else self

/-- Delivery of a sequence of events. -/
def dispatchAll (numberToString : ℝ → String) (win : Window) (self : SolarSystem)
    (es : List PointerEvent) : SolarSystem :=
  es.foldl (dispatch numberToString win) self

/-- The states the page can be in: the state after `init`, and any state
obtained from one of these by a frame, a reset, a click on the pause button, a
slider input or a pointer event. -/
inductive Reachable : SolarSystem → Prop where
  | init (random : ℕ → ℝ) (tooltip : Tooltip) : Reachable (SolarSystem.init random tooltip)
  | frame {s : SolarSystem} : Reachable s → Reachable s.animate
  | reset {s : SolarSystem} (random : ℕ → ℝ) : Reachable s → Reachable (s.resetSystem random)
  | pause {s : SolarSystem} : Reachable s → Reachable s.pauseClick
  | slider {s : SolarSystem} (index : ℕ) (newSpeed : ℝ) :
      Reachable s → Reachable (s.sliderInput index newSpeed)
  | pointer {s : SolarSystem} (numberToString : ℝ → String) (win : Window)
      (e : PointerEvent) : Reachable s → Reachable (dispatch numberToString win s e)

/-! ## World position of a planet -/

/-- A viewport of 800 by 600 pixels. -/
def exampleWindow : Window := ⟨800, 600⟩

/-- The system after `init`, every random draw being `0`, with an empty hidden
tooltip. -/
def exampleSystem : SolarSystem := SolarSystem.init (fun _ => 0) ⟨"", "", "", "0"⟩

/-- A number printer that prints nothing; the statements below do not depend
on the printer. -/
def exampleNumberToString : ℝ → String := fun _ => ""

/-! ## Lemmas on vectors -/

theorem initialCameraPosition_range :
    20 ≤ initialCameraPosition.length ∧ initialCameraPosition.length ≤ 200 := by
  unfold initialCameraPosition Vector3.length
  constructor
  · apply Real.le_sqrt_of_sq_le; norm_num
  · rw [Real.sqrt_le_iff]; norm_num

theorem handleMouseHover_mouse (numberToString : ℝ → String) (win : Window)
    (self : SolarSystem) (clientX clientY : ℝ) (intersects : List Intersection) :
    (self.handleMouseHover numberToString win clientX clientY intersects).mouse =
      ⟨clientX / win.innerWidth * 2 - 1, -(clientY / win.innerHeight) * 2 + 1⟩ := by
  cases intersects <;> rfl

theorem mousemoveHandler_mouse (win : Window) (self : SolarSystem) (clientX clientY : ℝ) :
    (self.mousemoveHandler win clientX clientY).mouse =
      ⟨clientX / win.innerWidth * 2 - 1, -(clientY / win.innerHeight) * 2 + 1⟩ := rfl

/-- C8: for a viewport of positive width and height `handleMouseHover` sets
`mouse` to `(2 * screenX / width - 1, 1 - 2 * screenY / height)`; `screenY = 0`
gives `1` and `screenY = height` gives `-1`; for a pointer inside the viewport
both coordinates lie in `[-1, 1]`; the `mousemove` listener of
`setupMouseControls` computes the same pair. -/
theorem hover_ndc (numberToString : ℝ → String) (win : Window) (self : SolarSystem)
    (screenX screenY : ℝ) (intersects : List Intersection)
    (hw : 0 < win.innerWidth) (hh : 0 < win.innerHeight) :
    (self.handleMouseHover numberToString win screenX screenY intersects).mouse =
        ⟨2 * screenX / win.innerWidth - 1, 1 - 2 * screenY / win.innerHeight⟩ ∧
    (screenY = 0 →
      (self.handleMouseHover numberToString win screenX screenY intersects).mouse.y = 1) ∧
    (screenY = win.innerHeight →
      (self.handleMouseHover numberToString win screenX screenY intersects).mouse.y = -1) ∧
    (0 ≤ screenX → screenX ≤ win.innerWidth → 0 ≤ screenY → screenY ≤ win.innerHeight →
      -1 ≤ (self.handleMouseHover numberToString win screenX screenY intersects).mouse.x ∧
      (self.handleMouseHover numberToString win screenX screenY intersects).mouse.x ≤ 1 ∧
      -1 ≤ (self.handleMouseHover numberToString win screenX screenY intersects).mouse.y ∧
      (self.handleMouseHover numberToString win screenX screenY intersects).mouse.y ≤ 1) ∧
    (self.mousemoveHandler win screenX screenY).mouse =
      (self.handleMouseHover numberToString win screenX screenY intersects).mouse := by
  rw [handleMouseHover_mouse, mousemoveHandler_mouse]
  refine ⟨?_, ?_, ?_, ?_, rfl⟩
  · rw [Vector2.mk.injEq]
    constructor <;> ring
  · intro hy
    simp [hy]
  · intro hy
    simp only [hy, div_self (ne_of_gt hh)]
    norm_num
  · intro hx0 hx1 hy0 hy1
    have h1 : 0 ≤ screenX / win.innerWidth := div_nonneg hx0 hw.le
    have h2 : screenX / win.innerWidth ≤ 1 := (div_le_one hw).mpr hx1
    have h3 : 0 ≤ screenY / win.innerHeight := div_nonneg hy0 hh.le
    have h4 : screenY / win.innerHeight ≤ 1 := (div_le_one hh).mpr hy1
    simp only []
    refine ⟨?_, ?_, ?_, ?_⟩ <;> linarith

/-! ## The orbital integrator -/

theorem animate_unpaused (self : SolarSystem) (h : self.isPaused = false) :
    self.animate.planets = self.planets.map SolarSystem.animatePlanet := by
  simp [SolarSystem.animate, h]

theorem animate_paused (self : SolarSystem) (h : self.isPaused = true) :
    self.animate = self := by
  simp [SolarSystem.animate, h]

theorem animatePlanet_position (p : Planet) (hy : p.mesh.position.y = 0) :
    (SolarSystem.animatePlanet p).mesh.position =
      ⟨Real.cos (SolarSystem.animatePlanet p).angle * p.data.distance, 0,
        Real.sin (SolarSystem.animatePlanet p).angle * p.data.distance⟩ := by
  simp [SolarSystem.animatePlanet, hy]

theorem resetSystem_data (self : SolarSystem) (random : ℕ → ℝ) :
    (self.resetSystem random).planets.map (fun p => p.data) =
      self.planets.map (fun p => p.data) := by
  apply List.ext_getElem?
  intro i
  simp only [SolarSystem.resetSystem, List.getElem?_map, List.getElem?_mapIdx]
  cases self.planets[i]? <;> rfl

theorem resetSystem_speed (self : SolarSystem) (random : ℕ → ℝ) :
    (self.resetSystem random).planets.map (fun p => p.currentSpeed) =
      self.planets.map (fun p => p.data.speed) := by
  apply List.ext_getElem?
  intro i
  simp only [SolarSystem.resetSystem, List.getElem?_map, List.getElem?_mapIdx]
  cases self.planets[i]? <;> rfl

theorem resetSequence_data (randoms : List (ℕ → ℝ)) (self : SolarSystem) :
    (self.resetSequence randoms).planets.map (fun p => p.data) =
      self.planets.map (fun p => p.data) := by
  induction randoms generalizing self with
  | nil => rfl
  | cons r rs ih =>
    have hstep : self.resetSequence (r :: rs) = (self.resetSystem r).resetSequence rs := rfl
    rw [hstep, ih, resetSystem_data]

theorem resetSystem_mem (self : SolarSystem) (random : ℕ → ℝ) (hr : ∀ i, 0 ≤ random i ∧ random i < 1)
    (p : Planet) (hp : p ∈ (self.resetSystem random).planets) :
    p.currentSpeed = p.data.speed ∧ 0 ≤ p.angle ∧ p.angle < 2 * Real.pi := by
  simp only [SolarSystem.resetSystem, List.mem_mapIdx] at hp
  obtain ⟨i, _, rfl⟩ := hp
  obtain ⟨h0, h1⟩ := hr i
  have hpi := Real.pi_pos
  refine ⟨rfl, ?_, ?_⟩
  · show 0 ≤ random i * Real.pi * 2
    positivity
  · show random i * Real.pi * 2 < 2 * Real.pi
    nlinarith

/-- C7: after `k ≥ 1` consecutive calls of `resetSystem`, each random draw
being in `[0, 1)`, every planet has `currentSpeed` equal to its base speed
`data.speed` (the records are the ones the planets had before) and its angle in
`[0, 2π)`; the speeds after two resets in a row are those after one. -/
theorem reset_speeds_angles (self : SolarSystem) (randoms : List (ℕ → ℝ))
    (hne : randoms ≠ []) (hr : ∀ r ∈ randoms, ∀ i, 0 ≤ r i ∧ r i < 1) :
    (∀ p ∈ (self.resetSequence randoms).planets,
      p.currentSpeed = p.data.speed ∧ 0 ≤ p.angle ∧ p.angle < 2 * Real.pi) ∧
    (self.resetSequence randoms).planets.map (fun p => p.data) =
      self.planets.map (fun p => p.data) ∧
    (self.resetSequence randoms).planets.map (fun p => p.currentSpeed) =
      self.planets.map (fun p => p.data.speed) ∧
    (∀ r1 r2 : ℕ → ℝ,
      ((self.resetSystem r1).resetSystem r2).planets.map (fun p => p.currentSpeed) =
        (self.resetSystem r1).planets.map (fun p => p.currentSpeed)) := by
  rcases List.eq_nil_or_concat randoms with h | ⟨rs, r, h⟩
  · exact absurd h hne
  · have hlast : self.resetSequence randoms = (self.resetSequence rs).resetSystem r := by
      rw [h]
      simp [SolarSystem.resetSequence, List.foldl_append]
    have hrr : ∀ i, 0 ≤ r i ∧ r i < 1 := hr r (by rw [h]; simp)
    refine ⟨?_, resetSequence_data randoms self, ?_, ?_⟩
    · intro p hp
      rw [hlast] at hp
      exact resetSystem_mem _ r hrr p hp
    · rw [hlast, resetSystem_speed]
      have hd := congrArg (List.map (fun d : PlanetData => d.speed))
        (resetSequence_data rs self)
      simpa [List.map_map, Function.comp] using hd
    · intro r1 r2
      rw [resetSystem_speed, resetSystem_speed]
      have hd := congrArg (List.map (fun d : PlanetData => d.speed))
        (resetSystem_data self r1)
      simpa [List.map_map, Function.comp] using hd

/-! ## Picking -/

theorem planetData_names :
    planetData.map (fun d => d.name) =
      ["Mercury", "Venus", "Earth", "Mars", "Jupiter", "Saturn", "Uranus", "Neptune"] := rfl

theorem createPlanets_records (random : ℕ → ℝ) :
    (createPlanets random).map (fun p => (p.mesh.name, p.data)) =
      planetData.map (fun d => (d.name, d)) := by
  apply List.ext_getElem?
  intro i
  simp only [createPlanets, List.getElem?_map, List.getElem?_mapIdx]
  cases planetData[i]? <;> rfl

theorem find_planetData (d : PlanetData) (hd : d ∈ planetData) :
    planetData.find? (fun p => p.name == d.name) = some d := by
  simp only [planetData, List.mem_cons, List.mem_singleton, List.not_mem_nil, or_false] at hd
  rcases hd with rfl | rfl | rfl | rfl | rfl | rfl | rfl | rfl <;>
    simp [planetData, List.find?]

theorem planetData_name_ne_sun (d : PlanetData) (hd : d ∈ planetData) : d.name ≠ "Sun" := by
  simp only [planetData, List.mem_cons, List.mem_singleton, List.not_mem_nil, or_false] at hd
  rcases hd with rfl | rfl | rfl | rfl | rfl | rfl | rfl | rfl <;> simp

/-! ## The drag state -/

theorem handleMouseHover_drag (numberToString : ℝ → String) (win : Window)
    (self : SolarSystem) (clientX clientY : ℝ) (intersects : List Intersection) :
    (self.handleMouseHover numberToString win clientX clientY intersects).isDragging =
        self.isDragging ∧
      (self.handleMouseHover numberToString win clientX clientY intersects).cameraPosition =
        self.cameraPosition := by
  cases intersects <;> exact ⟨rfl, rfl⟩

theorem dispatch_idle (numberToString : ℝ → String) (win : Window) (self : SolarSystem)
    (e : PointerEvent) (hidle : self.isDragging = false)
    (he : e.onCanvas = true →
      e.event = .mouseup ∨ ∃ x y hits, e.event = .mousemove x y hits) :
    (dispatch numberToString win self e).isDragging = false ∧
      (dispatch numberToString win self e).cameraPosition = self.cameraPosition := by
  unfold dispatch
  by_cases hc : e.onCanvas = true
  · rw [if_pos hc]
    rcases he hc with h | ⟨x, y, hits, h⟩
    · rw [h]
      exact ⟨rfl, rfl⟩
    · rw [h]
      simp only [canvasListeners]
      obtain ⟨h1, h2⟩ := handleMouseHover_drag numberToString win
        (self.mousemoveHandler win x y) x y hits
      rw [h1, h2]
      simp [SolarSystem.mousemoveHandler, hidle]
  · rw [if_neg hc]
    exact ⟨hidle, rfl⟩

theorem dispatchAll_idle (numberToString : ℝ → String) (win : Window)
    (later : List PointerEvent) (self : SolarSystem) (hidle : self.isDragging = false)
    (hl : ∀ e ∈ later, e.onCanvas = true →
      e.event = .mouseup ∨ ∃ x y hits, e.event = .mousemove x y hits) :
    (dispatchAll numberToString win self later).isDragging = false ∧
      (dispatchAll numberToString win self later).cameraPosition = self.cameraPosition := by
  induction later generalizing self with
  | nil => exact ⟨hidle, rfl⟩
  | cons e es ih =>
    obtain ⟨h1, h2⟩ := dispatch_idle numberToString win self e hidle
      (hl e (List.mem_cons_self _ _))
    obtain ⟨h3, h4⟩ := ih (dispatch numberToString win self e) h1
      (fun e' he' => hl e' (List.mem_cons_of_mem _ he'))
    exact ⟨h3, h4.trans h2⟩

/-- C4, as the code has it: a pointer-up delivered to the canvas ends the drag,
and from then on mouse-moves and pointer-ups, wherever they occur, leave
`isDragging` false and the camera where it is as long as no pointer-down or
wheel event reaches the canvas; an event whose target is not the canvas runs no
listener and changes nothing. -/
theorem canvas_mouseup_ends_drag (numberToString : ℝ → String) (win : Window)
    (self : SolarSystem) (later : List PointerEvent)
    (hl : ∀ e ∈ later, e.onCanvas = true →
      e.event = .mouseup ∨ ∃ x y hits, e.event = .mousemove x y hits) :
    (dispatch numberToString win self ⟨true, .mouseup⟩).isDragging = false ∧
    (dispatchAll numberToString win
      (dispatch numberToString win self ⟨true, .mouseup⟩) later).isDragging = false ∧
    (dispatchAll numberToString win
      (dispatch numberToString win self ⟨true, .mouseup⟩) later).cameraPosition =
        self.cameraPosition ∧
    (∀ e : PointerEvent, e.onCanvas = false → dispatch numberToString win self e = self) := by
  have h0 : (dispatch numberToString win self ⟨true, .mouseup⟩).isDragging = false := rfl
  obtain ⟨h1, h2⟩ := dispatchAll_idle numberToString win later _ h0 hl
  refine ⟨h0, h1, h2, ?_⟩
  intro e he
  simp [dispatch, he]


theorem atan2_zero_pos : atan2 0 60 = 0 := by
  unfold atan2
  have h : (⟨60, 0⟩ : ℂ) = ((60 : ℝ) : ℂ) := by
    apply Complex.ext <;> simp
  rw [h, Complex.arg_ofReal_of_nonneg (by norm_num)]

theorem rotateCamera_example_x :
    (SolarSystem.rotateCamera initialCameraPosition ⟨100 - 0, 0 - 0⟩).x < 0 := by
  have hrad : Real.sqrt ((0 : ℝ) * 0 + 30 * 30 + 60 * 60) ≠ 0 := by
    have := initialCameraPosition_range.1
    unfold initialCameraPosition Vector3.length at this
    simp only [] at this
    linarith
  have hradpos : 0 < Real.sqrt ((0 : ℝ) * 0 + 30 * 30 + 60 * 60) :=
    lt_of_le_of_ne (Real.sqrt_nonneg _) (Ne.symm hrad)
  unfold SolarSystem.rotateCamera Spherical.setFromVector3 initialCameraPosition
    Vector3.setFromSpherical
  simp only [if_neg hrad, atan2_zero_pos]
  generalize Real.arccos (-1 ⊔ 1 ⊓ 30 / √((0 : ℝ) * 0 + 30 * 30 + 60 * 60)) + (0 - 0) * 1e-2 = phi
  have hpi := Real.pi_gt_three
  have hlo : (0.1 : ℝ) ≤ 0.1 ⊔ (Real.pi - 0.1) ⊓ phi := le_max_left _ _
  have hhi : 0.1 ⊔ (Real.pi - 0.1) ⊓ phi ≤ Real.pi - 0.1 :=
    max_le (by linarith) (min_le_left _ _)
  have hsin : 0 < Real.sin (0.1 ⊔ (Real.pi - 0.1) ⊓ phi) :=
    Real.sin_pos_of_pos_of_lt_pi (by linarith) (by linarith)
  have hth : Real.sin (0 - (100 - 0) * 1e-2) < 0 := by
    have h1 : (0 : ℝ) - (100 - 0) * 1e-2 = -1 := by norm_num
    rw [h1, Real.sin_neg]
    have := Real.sin_pos_of_pos_of_lt_pi (x := 1) (by norm_num) (by linarith)
    linarith
  exact mul_neg_of_pos_of_neg (mul_pos hsin hradpos) hth

/-- C4 fails as stated: a drag started on the canvas and released off the
canvas leaves `isDragging` true, and the next mouse-move over the canvas, with
no new pointer-down, moves the camera. -/
theorem offCanvas_mouseup_keeps_drag :
    (dispatchAll exampleNumberToString exampleWindow exampleSystem
      [⟨true, .mousedown 0 0⟩, ⟨false, .mouseup⟩]).isDragging = true ∧
    (dispatchAll exampleNumberToString exampleWindow exampleSystem
      [⟨true, .mousedown 0 0⟩, ⟨false, .mouseup⟩, ⟨true, .mousemove 100 0 []⟩]).cameraPosition ≠
    (dispatchAll exampleNumberToString exampleWindow exampleSystem
      [⟨true, .mousedown 0 0⟩, ⟨false, .mouseup⟩]).cameraPosition := by
  refine ⟨rfl, ?_⟩
  intro h
  have h1 : (dispatchAll exampleNumberToString exampleWindow exampleSystem
      [⟨true, .mousedown 0 0⟩, ⟨false, .mouseup⟩, ⟨true, .mousemove 100 0 []⟩]).cameraPosition =
      SolarSystem.rotateCamera initialCameraPosition ⟨100 - 0, 0 - 0⟩ := rfl
  have h2 : (dispatchAll exampleNumberToString exampleWindow exampleSystem
      [⟨true, .mousedown 0 0⟩, ⟨false, .mouseup⟩]).cameraPosition = initialCameraPosition := rfl
  rw [h1, h2] at h
  have hx := rotateCamera_example_x
  rw [h] at hx
  exact lt_irrefl _ hx

/-! ## What the planets keep -/

theorem createPlanets_origin (random : ℕ → ℝ) (p : Planet) (hp : p ∈ createPlanets random) :
    p.mesh.position.y = 0 ∧ p.orbitGroup.position = ⟨0, 0, 0⟩ := by
  simp only [createPlanets, List.mem_mapIdx] at hp
  obtain ⟨i, _, rfl⟩ := hp
  exact ⟨rfl, rfl⟩

theorem animate_origin (self : SolarSystem)
    (h : ∀ p ∈ self.planets, p.mesh.position.y = 0 ∧ p.orbitGroup.position = ⟨0, 0, 0⟩) :
    ∀ p ∈ self.animate.planets,
      p.mesh.position.y = 0 ∧ p.orbitGroup.position = ⟨0, 0, 0⟩ := by
  intro p hp
  cases hpa : self.isPaused with
  | true => rw [animate_paused self hpa] at hp; exact h p hp
  | false =>
    rw [animate_unpaused self hpa, List.mem_map] at hp
    obtain ⟨q, hq, rfl⟩ := hp
    exact h q hq

theorem resetSystem_origin (self : SolarSystem) (random : ℕ → ℝ)
    (h : ∀ p ∈ self.planets, p.mesh.position.y = 0 ∧ p.orbitGroup.position = ⟨0, 0, 0⟩) :
    ∀ p ∈ (self.resetSystem random).planets,
      p.mesh.position.y = 0 ∧ p.orbitGroup.position = ⟨0, 0, 0⟩ := by
  intro p hp
  simp only [SolarSystem.resetSystem, List.mem_mapIdx] at hp
  obtain ⟨i, hi, rfl⟩ := hp
  exact h (self.planets.get ⟨i, hi⟩) (List.getElem_mem hi)

theorem sliderInput_origin (self : SolarSystem) (index : ℕ) (newSpeed : ℝ)
    (h : ∀ p ∈ self.planets, p.mesh.position.y = 0 ∧ p.orbitGroup.position = ⟨0, 0, 0⟩) :
    ∀ p ∈ (self.sliderInput index newSpeed).planets,
      p.mesh.position.y = 0 ∧ p.orbitGroup.position = ⟨0, 0, 0⟩ := by
  intro p hp
  simp only [SolarSystem.sliderInput, List.mem_mapIdx] at hp
  obtain ⟨i, hi, rfl⟩ := hp
  have hq := h (self.planets.get ⟨i, hi⟩) (List.getElem_mem hi)
  split_ifs
  · exact hq
  · exact hq

theorem dispatch_planets (numberToString : ℝ → String) (win : Window) (self : SolarSystem)
    (e : PointerEvent) : (dispatch numberToString win self e).planets = self.planets := by
  unfold dispatch
  split_ifs
  · cases h : e.event with
    | mousedown x y => rfl
    | mousemove x y hits =>
      simp only [canvasListeners]
      cases hits <;> simp [SolarSystem.handleMouseHover, SolarSystem.mousemoveHandler] <;>
        split_ifs <;> rfl
    | mouseup => rfl
    | wheel d => rfl
  · rfl

/-- In every reachable state each planet mesh has local `y = 0` and each orbit
group sits at the origin: `createPlanets` builds them so and nothing writes
these fields. -/
theorem reachable_origin (self : SolarSystem) (h : Reachable self) :
    ∀ p ∈ self.planets, p.mesh.position.y = 0 ∧ p.orbitGroup.position = ⟨0, 0, 0⟩ := by
  induction h with
  | init random tooltip => exact createPlanets_origin random
  | frame _ ih => exact animate_origin _ ih
  | reset random _ ih => exact resetSystem_origin _ random ih
  | pause _ ih => exact ih
  | slider index newSpeed _ ih => exact sliderInput_origin _ index newSpeed ih
  | pointer numberToString win e _ ih => rw [dispatch_planets]; exact ih

theorem dispatch_sun (numberToString : ℝ → String) (win : Window) (self : SolarSystem)
    (e : PointerEvent) : (dispatch numberToString win self e).sun = self.sun := by
  unfold dispatch
  split_ifs
  · cases h : e.event with
    | mousedown x y => rfl
    | mousemove x y hits =>
      simp only [canvasListeners]
      cases hits <;> simp [SolarSystem.handleMouseHover, SolarSystem.mousemoveHandler] <;>
        split_ifs <;> rfl
    | mouseup => rfl
    | wheel d => rfl
  · rfl

/-- In every reachable state the planets are those of the table, in its order:
each mesh carries the name of its record; and the sun is named `Sun`. -/
theorem reachable_records (self : SolarSystem) (h : Reachable self) :
    self.planets.map (fun p => (p.mesh.name, p.data)) =
        planetData.map (fun d => (d.name, d)) ∧
      self.sun.name = "Sun" := by
  induction h with
  | init random tooltip => exact ⟨createPlanets_records random, rfl⟩
  | @frame s _ ih =>
    cases hpa : s.isPaused with
    | true => rw [animate_paused s hpa]; exact ih
    | false =>
      refine ⟨?_, ?_⟩
      · rw [animate_unpaused s hpa, List.map_map, ← ih.1]
        rfl
      · simp only [SolarSystem.animate, hpa]
        exact ih.2
  | @reset s random _ ih =>
    refine ⟨?_, ih.2⟩
    rw [← ih.1]
    apply List.ext_getElem?
    intro i
    simp only [SolarSystem.resetSystem, List.getElem?_map, List.getElem?_mapIdx]
    cases s.planets[i]? <;> rfl
  | pause _ ih => exact ih
  | @slider s index newSpeed _ ih =>
    refine ⟨?_, ih.2⟩
    rw [← ih.1]
    apply List.ext_getElem?
    intro i
    simp only [SolarSystem.sliderInput, List.getElem?_map, List.getElem?_mapIdx]
    cases s.planets[i]? with
    | none => rfl
    | some p =>
      simp only [Option.map_some']
      split_ifs <;> rfl
  | pointer numberToString win e _ ih => rw [dispatch_planets, dispatch_sun]; exact ih

/-- C9: `handleMouseHover` uses the first entry of the intersection list, which
is the nearest one when the list is ordered nearest-first.  With no entry the
tooltip is hidden (opacity `0`, text untouched); when the first entry is the
sun the tooltip shows the sun's text; when it is the mesh of the planet at
index `i` the tooltip shows `name - Distance: distance AU` with the name and the
distance of that planet's own record, which is record `i` of the table.  Every
candidate is the sun or a planet mesh, so one of the two cases applies; the
eight names are pairwise distinct and none is `Sun`. -/
theorem hover_picks_first (numberToString : ℝ → String) (win : Window)
    (self : SolarSystem) (clientX clientY : ℝ) (hreach : Reachable self) :
    (self.handleMouseHover numberToString win clientX clientY []).tooltip =
      { self.tooltip with opacity := "0" } ∧
    (∀ (hit : Intersection) (rest : List Intersection), hit.object.name = self.sun.name →
      (self.handleMouseHover numberToString win clientX clientY (hit :: rest)).tooltip.textContent
          = "The Sun - Our solar system\x27s star" ∧
      (self.handleMouseHover numberToString win clientX clientY (hit :: rest)).tooltip.opacity
          = "1") ∧
    (∀ (i : ℕ) (p : Planet) (hit : Intersection) (rest : List Intersection),
      self.planets[i]? = some p → hit.object.name = p.mesh.name →
      planetData[i]? = some p.data ∧
      (self.handleMouseHover numberToString win clientX clientY (hit :: rest)).tooltip.textContent
          = p.data.name ++ " - Distance: " ++ numberToString p.data.distance ++ " AU" ∧
      (self.handleMouseHover numberToString win clientX clientY (hit :: rest)).tooltip.opacity
          = "1") ∧
    (∀ o ∈ self.candidates, o = self.sun ∨ ∃ p ∈ self.planets, o = p.mesh) ∧
    (∀ (hit : Intersection) (rest : List Intersection),
      (hit :: rest).Pairwise (fun a b => a.distance ≤ b.distance) →
        ∀ other ∈ hit :: rest, hit.distance ≤ other.distance) ∧
    (planetData.map (fun d => d.name)).Nodup ∧
    "Sun" ∉ planetData.map (fun d => d.name) := by
  obtain ⟨hrec, hsun⟩ := reachable_records self hreach
  refine ⟨rfl, ?_, ?_, ?_, ?_, ?_, ?_⟩
  · intro hit rest hname
    rw [hsun] at hname
    simp [SolarSystem.handleMouseHover, hname]
  · intro i p hit rest hp hname
    have hi := congrArg (fun l => l[i]?) hrec
    simp only [List.getElem?_map, hp, Option.map_some'] at hi
    cases hd : planetData[i]? with
    | none => rw [hd] at hi; simp at hi
    | some d =>
      rw [hd] at hi
      simp only [Option.map_some', Option.some.injEq, Prod.mk.injEq] at hi
      obtain ⟨hn, hdata⟩ := hi
      have hmem : d ∈ planetData := List.getElem?_mem hd
      have hns := planetData_name_ne_sun d hmem
      have hfind := find_planetData d hmem
      rw [hn] at hname
      refine ⟨by rw [hdata], ?_⟩
      rw [hdata]
      simp only [SolarSystem.handleMouseHover, hname, if_neg hns, hfind, and_self]
  · intro o ho
    simp only [SolarSystem.candidates, List.mem_append, List.mem_map, List.mem_singleton] at ho
    rcases ho with ⟨p, hp, rfl⟩ | rfl
    · exact Or.inr ⟨p, hp, rfl⟩
    · exact Or.inl rfl
  · intro hit rest hsorted other hmem
    rcases List.mem_cons.mp hmem with rfl | hmem
    · exact le_refl _
    · exact (List.pairwise_cons.mp hsorted).1 other hmem
  · rw [planetData_names]; decide
  · rw [planetData_names]; decide

/-- C5: in a reachable state, one unpaused frame sets a planet's angle to
`a + s * 0.01` and its mesh position to `(cos(a') * d, 0, sin(a') * d)` for the
new angle `a'`; the `y` coordinate is the one the mesh had, which is `0`; for
`d = 16`, `s = 1.0`, `a = 0` the angle becomes `0.01` and the position
`(16 cos 0.01, 0, 16 sin 0.01)`. -/
theorem unpaused_frame_position (self : SolarSystem) (i : ℕ) (p : Planet)
    (hreach : Reachable self) (hrun : self.isPaused = false)
    (hp : self.planets[i]? = some p) :
    ∃ q : Planet, self.animate.planets[i]? = some q ∧
      q.data = p.data ∧ q.currentSpeed = p.currentSpeed ∧
      q.angle = p.angle + p.currentSpeed * 0.01 ∧
      q.mesh.position =
        ⟨Real.cos q.angle * p.data.distance, 0, Real.sin q.angle * p.data.distance⟩ ∧
      q.mesh.position.y = p.mesh.position.y ∧
      (p.data.distance = 16 → p.currentSpeed = 1.0 → p.angle = 0 →
        q.angle = 0.01 ∧
        q.mesh.position = ⟨16 * Real.cos 0.01, 0, 16 * Real.sin 0.01⟩) := by
  have hy : p.mesh.position.y = 0 :=
    (reachable_origin self hreach p (List.getElem?_mem hp)).1
  refine ⟨SolarSystem.animatePlanet p, ?_, rfl, rfl, rfl,
    animatePlanet_position p hy, rfl, ?_⟩
  · rw [animate_unpaused self hrun, List.getElem?_map, hp]
    rfl
  · intro hd hs ha
    simp only [SolarSystem.animatePlanet, hd, hs, ha, hy, Vector3.mk.injEq]
    norm_num
    constructor <;> ring

theorem exampleSystem_earth :
    exampleSystem.planets[2]? = some (createPlanet ⟨"Earth", 1.0, 16, 1.0, "blue"⟩ 0) := by
  simp [exampleSystem, SolarSystem.init, createPlanets, planetData, List.getElem?_mapIdx]

theorem canvas_mouseup_ends_drag_witness :
    (dispatchAll exampleNumberToString exampleWindow
      (dispatch exampleNumberToString exampleWindow (exampleSystem.mousedownHandler 0 0)
        ⟨true, .mouseup⟩)
      [⟨true, .mousemove 100 0 []⟩, ⟨false, .mouseup⟩]).cameraPosition =
        initialCameraPosition :=
  (canvas_mouseup_ends_drag exampleNumberToString exampleWindow
    (exampleSystem.mousedownHandler 0 0) [⟨true, .mousemove 100 0 []⟩, ⟨false, .mouseup⟩]
    (by
      intro e he hc
      simp only [List.mem_cons, List.mem_singleton, List.not_mem_nil, or_false] at he
      rcases he with rfl | rfl
      · exact Or.inr ⟨100, 0, [], rfl⟩
      · exact Or.inl rfl)).2.2.1

theorem unpaused_frame_position_witness :
    ∃ q : Planet, exampleSystem.animate.planets[2]? = some q ∧ q.angle = 0.01 ∧
      q.mesh.position = ⟨16 * Real.cos 0.01, 0, 16 * Real.sin 0.01⟩ := by
  obtain ⟨q, h1, _, _, _, _, _, h7⟩ :=
    unpaused_frame_position exampleSystem 2 (createPlanet ⟨"Earth", 1.0, 16, 1.0, "blue"⟩ 0)
      (Reachable.init _ _) rfl exampleSystem_earth
  exact ⟨q, h1, h7 rfl rfl (by simp [createPlanet])⟩

theorem reset_speeds_angles_witness :
    (exampleSystem.resetSequence [fun _ => 0.5, fun _ => 0.25]).planets.map
        (fun p => p.currentSpeed) = exampleSystem.planets.map (fun p => p.data.speed) :=
  (reset_speeds_angles exampleSystem [fun _ => 0.5, fun _ => 0.25] (by simp)
    (by
      intro r hr i
      simp only [List.mem_cons, List.mem_singleton, List.not_mem_nil, or_false] at hr
      rcases hr with rfl | rfl <;> norm_num)).2.2.1

theorem hover_picks_first_witness :
    (exampleSystem.handleMouseHover exampleNumberToString exampleWindow 400 300
        [⟨44, ⟨"Earth", ⟨16, 0, 0⟩, 0⟩⟩, ⟨60, createSun⟩]).tooltip.textContent =
      "Earth" ++ " - Distance: " ++ exampleNumberToString 16 ++ " AU" :=
  ((hover_picks_first exampleNumberToString exampleWindow exampleSystem 400 300
    (Reachable.init _ _)).2.2.1 2 (createPlanet ⟨"Earth", 1.0, 16, 1.0, "blue"⟩ 0)
    ⟨44, ⟨"Earth", ⟨16, 0, 0⟩, 0⟩⟩ [⟨60, createSun⟩] exampleSystem_earth rfl).2.1

theorem hover_ndc_witness :
    (exampleSystem.handleMouseHover exampleNumberToString exampleWindow 400 300 []).mouse =
      ⟨2 * 400 / exampleWindow.innerWidth - 1, 1 - 2 * 300 / exampleWindow.innerHeight⟩ :=
  (hover_ndc exampleNumberToString exampleWindow exampleSystem 400 300 []
    (by norm_num [exampleWindow]) (by norm_num [exampleWindow])).1

end SolarScene
